import Mathlib

/-!
Verification development for the Sigma_Judge judging engine.

The Python source under `app/` is shallowly embedded: Python floats become
rationals (`ℚ`), Python strings become Lean `String`/`List Char`, dictionaries
become association lists, and functions that touch the filesystem or spawn
processes are modelled as pure functions over explicit oracles describing the
host world.  Every definition mirrors one Python function and records where it
comes from.
-/

namespace SigmaJudge

/-- The `SubmissionStatus` enum from `app/models/submission.py`. -/
inductive SubmissionStatus
  | pending
  | correct
  | wrong_answer
  | time_limit_exceeded
  | memory_limit_exceeded
  | runtime_error
  | compilation_error
  deriving DecidableEq, Repr

/-- The `TestCaseResult` dataclass from `app/models/submission.py`.
Python floats are modelled as rationals. -/
structure TestCaseResult where
  status : SubmissionStatus := .pending
  execution_time : ℚ := 0
  memory_used : ℚ := 0
  error_message : String := ""
  input_excerpt : String := ""
  expected_output : String := ""
  actual_output : String := ""
  deriving DecidableEq, Repr

/-- The `SubmissionResult` dataclass from `app/models/submission.py`. -/
structure SubmissionResult where
  contestant_id : String
  problem_id : String
  status : SubmissionStatus := .pending
  score : ℚ := 0
  max_score : ℚ := 0
  execution_time : ℚ := 0
  memory_used : ℚ := 0
  test_case_results : List TestCaseResult := []
  deriving DecidableEq, Repr

/-- The priority list scanned by `SubmissionResult.calculate_score`
(`app/models/submission.py` lines 66-70). -/
def statusPriority : List SubmissionStatus :=
  [.compilation_error, .runtime_error, .time_limit_exceeded,
   .memory_limit_exceeded, .wrong_answer]

/-- The comprehension
`sum(weights[i] for i, tc in enumerate(self.test_case_results) if tc.status == CORRECT)`
from `calculate_score` (`app/models/submission.py` lines 51-52), walking the two
equal-length lists in step. -/
def sumCorrectWeights : List ℚ → List TestCaseResult → ℚ
  | w :: ws, tc :: tcs =>
      (if tc.status = .correct then w else 0) + sumCorrectWeights ws tcs
  | _, _ => 0

/-- `max(... for tc in test_case_results)` over the `memory_used` fields:
Python's `max` of a non-empty list (the `default=0` only applies to an empty
list). -/
def pyMax : List ℚ → ℚ
  | [] => 0
  | x :: xs => xs.foldl max x

/-- The weight substitution of `calculate_score`
(`app/models/submission.py` lines 43-45): `None` or a length mismatch is
replaced by equal weights of `1.0`. -/
def effectiveWeights (weights : Option (List ℚ)) (n : ℕ) : List ℚ :=
  match weights with
  | none => List.replicate n 1
  | some w => if w.length ≠ n then List.replicate n 1 else w

/-- `SubmissionResult.calculate_score` from `app/models/submission.py`
lines 35-78.  `weights = none` models the Python default `weights=None`. -/
def calculateScore (r : SubmissionResult) (weights : Option (List ℚ)) :
    SubmissionResult :=
  if r.test_case_results = [] then
    { r with status := .pending, score := 0, max_score := 0 }
  else
    let ws : List ℚ := effectiveWeights weights r.test_case_results.length
    let maxScore := ws.sum
    let score := sumCorrectWeights ws r.test_case_results
    let execTime :=
      (r.test_case_results.map (·.execution_time)).sum /
        (r.test_case_results.length : ℚ)
    let mem := pyMax (r.test_case_results.map (·.memory_used))
    let finalStatus :=
      if r.test_case_results.all (fun tc => decide (tc.status = .correct)) then
        SubmissionStatus.correct
      else
        match statusPriority.find?
            (fun s => r.test_case_results.any (fun tc => decide (tc.status = s))) with
        | some s => s
        | none => .wrong_answer
    { r with status := finalStatus, score := score, max_score := maxScore,
             execution_time := execTime, memory_used := mem }

/-! ### String utilities with Python semantics -/

/-- Python's default whitespace class for `str.strip` (the ASCII whitespace
characters). -/
def isPySpace (c : Char) : Bool :=
  c = ' ' || c = '\t' || c = '\n' || c = '\r' || c = '\x0b' || c = '\x0c'

/-- `str.lstrip()` over a character list. -/
def lstrip (l : List Char) : List Char := l.dropWhile isPySpace

/-- `str.rstrip()` over a character list. -/
def rstrip (l : List Char) : List Char := (l.reverse.dropWhile isPySpace).reverse

/-- `str.strip()` over a character list: trim leading and trailing
whitespace. -/
def pyStrip (l : List Char) : List Char := rstrip (lstrip l)

/-- `str.split('\n')`: split at every newline, keeping empty pieces
(the empty string yields one empty line, as in Python). -/
def splitLines : List Char → List (List Char)
  | [] => [[]]
  | c :: rest =>
    match splitLines rest with
    | [] => [[c]]
    | l :: ls => if c = '\n' then [] :: l :: ls else (c :: l) :: ls

/-- `TestRunner._compare_output` (`app/core/modules/test_runner.py` lines
354-367), identical to `Evaluator._compare_output` (`app/core/evaluator.py`
lines 398-410): strip both outputs, split on newlines, require equal line
counts and strip-equal corresponding lines. -/
def compareOutput (actual expected : String) : Bool :=
  let aLines := splitLines (pyStrip actual.toList)
  let eLines := splitLines (pyStrip expected.toList)
  if aLines.length ≠ eLines.length then false
  else (aLines.zip eLines).all (fun p => decide (pyStrip p.1 = pyStrip p.2))

/-- The comparison rule exactly as the spec words it: after trimming
*trailing* whitespace only, both outputs have the same number of lines and
corresponding lines are equal after stripping. -/
def specCompareTrailing (actual expected : String) : Prop :=
  (splitLines (rstrip actual.toList)).length =
    (splitLines (rstrip expected.toList)).length ∧
  ∀ p ∈ (splitLines (rstrip actual.toList)).zip
      (splitLines (rstrip expected.toList)),
    pyStrip p.1 = pyStrip p.2

/-- The comparison rule with the trimming corrected to *leading and trailing*
whitespace: after stripping both outputs, they have the same number of lines
and corresponding lines are equal after stripping. -/
def specCompareStripped (actual expected : String) : Prop :=
  (splitLines (pyStrip actual.toList)).length =
    (splitLines (pyStrip expected.toList)).length ∧
  ∀ p ∈ (splitLines (pyStrip actual.toList)).zip
      (splitLines (pyStrip expected.toList)),
    pyStrip p.1 = pyStrip p.2

/-! ### Test-case execution and outcome classification -/

/-- The `ProblemSettings` dataclass from `app/models/settings.py`. -/
structure ProblemSettings where
  time_limit : ℚ := 1
  memory_limit : ℚ := 512
  io_mode : String := "auto"
  deriving DecidableEq, Repr

/-- The excerpt truncation `s[:100] + "..." if len(s) > 100 else s` used by
`TestRunner.run_test_case`. -/
def truncate100 (s : String) : String :=
  if s.length > 100 then s.take 100 ++ "..." else s

/-- The tuple `(stdout, stderr, execution_time, max_memory, returncode)`
returned by `ProcessManager.run_with_memory_monitoring`
(`app/core/modules/process_manager.py`). -/
structure RunOutcome where
  stdout : String
  stderr : String
  execution_time : ℚ
  max_memory : ℚ
  returncode : ℤ
  deriving DecidableEq, Repr

/-- The value returned by `ProcessManager.run_with_memory_monitoring` on
`subprocess.TimeoutExpired` (`process_manager.py` lines 86-92): residual
output is drained, elapsed time is pinned to the timeout, and the exit code
is the sentinel `-1`. -/
def processManagerTimeoutOutcome (stdout stderr : String)
    (timeout maxMemory : ℚ) : RunOutcome :=
  { stdout := stdout, stderr := stderr, execution_time := timeout,
    max_memory := maxMemory, returncode := -1 }

/-- The outcome classification of `TestRunner.run_test_case`
(`app/core/modules/test_runner.py` lines 79-137), as a function of the tuple
returned by `ProcessManager.run_with_memory_monitoring` and the recovered
actual output. -/
def classifyRun (settings : ProblemSettings) (inputData expectedOutput : String)
    (stderr : String) (executionTime maxMemory : ℚ) (returncode : ℤ)
    (actualOutput : String) : TestCaseResult :=
  if returncode = -1 ∧ settings.time_limit ≤ executionTime then
    { status := .time_limit_exceeded, execution_time := settings.time_limit,
      memory_used := maxMemory, error_message := "Time limit exceeded",
      input_excerpt := truncate100 inputData,
      expected_output := truncate100 expectedOutput, actual_output := "" }
  else if settings.memory_limit < maxMemory then
    { status := .memory_limit_exceeded, execution_time := executionTime,
      memory_used := maxMemory, error_message := "Memory limit exceeded",
      input_excerpt := truncate100 inputData,
      expected_output := truncate100 expectedOutput,
      actual_output := truncate100 actualOutput }
  else if returncode ≠ 0 then
    { status := .runtime_error, execution_time := executionTime,
      memory_used := maxMemory, error_message := stderr,
      input_excerpt := truncate100 inputData,
      expected_output := truncate100 expectedOutput,
      actual_output := truncate100 actualOutput }
  else if compareOutput actualOutput expectedOutput then
    { status := .correct, execution_time := executionTime,
      memory_used := maxMemory, error_message := "",
      input_excerpt := truncate100 inputData,
      expected_output := truncate100 expectedOutput,
      actual_output := truncate100 actualOutput }
  else
    { status := .wrong_answer, execution_time := executionTime,
      memory_used := maxMemory, error_message := "",
      input_excerpt := truncate100 inputData,
      expected_output := truncate100 expectedOutput,
      actual_output := truncate100 actualOutput }

/-! ### File-I/O pattern detection (`app/core/modules/file_io_detector.py`) -/

/-- The result dictionary built by `FileIODetector.detect_file_io`
(lines 19-27; the `name_macro` key is only ever set when the macro is
found). -/
structure IoDetectionResult where
  input : Option String := none
  output : Option String := none
  methods : List String := []
  input_methods : List String := []
  output_methods : List String := []
  conditional_io : Bool := false
  adaptive : Bool := false
  name_macro : Option String := none
  deriving DecidableEq, Repr

/-- Python truthiness of an optional string: `None` and the empty string are
falsy (the detector guards updates with `if not result[...]`). -/
def pyFalsy : Option String → Bool
  | none => true
  | some s => s.isEmpty

/-- Outcome of the regex and substring searches `FileIODetector` performs
over the source text.  Each field records the result of exactly one search
appearing in the Python code; the detector itself is embedded as a function
of these observations. -/
structure SourceScan where
  /-- the solution path ends with `.c` or `.cpp` (line 30) -/
  isCOrCpp : Bool := false
  /-- reading the file raised; the `except` path returns the fresh result -/
  readFails : Bool := false
  /-- group 1 of the `#define NAME "..."` search in `_detect_name_macro` -/
  nameMacro : Option String := none
  /-- the substring test `'docfile' in content` (line 43) -/
  hasDocfileText : Bool := false
  /-- some entry of `conditional_patterns` matched (lines 82-96) -/
  hasConditionalPattern : Bool := false
  /-- the regex `void docfile()` matched (line 99) -/
  hasDocfileFn : Bool := false
  /-- the substring test `'freopen' in content` (line 99) -/
  hasFreopenText : Bool := false
  /-- flags computed by `_detect_io_methods` (lines 113-119) -/
  usesIfstream : Bool := false
  usesOfstream : Bool := false
  usesFstream : Bool := false
  usesFreopenIn : Bool := false
  usesFreopenOut : Bool := false
  usesFopen : Bool := false
  /-- first filename matched by the freopen-stdin pattern (lines 161-168) -/
  freopenInName : Option String := none
  /-- first filename matched by the freopen-stdout pattern (lines 162-173) -/
  freopenOutName : Option String := none
  /-- first filename matched by the input stream patterns (lines 197-209) -/
  cppStreamInName : Option String := none
  /-- first filename matched by the stream `.open(...)` pattern (214-218) -/
  openMethodName : Option String := none
  /-- first filename matched by the output stream patterns (lines 223-234) -/
  cppStreamOutName : Option String := none
  /-- first filename of an input-named `#define` (lines 239-250) -/
  defineInName : Option String := none
  /-- first filename of an output-named `#define` (lines 239-255) -/
  defineOutName : Option String := none
  /-- first filename of an `fopen(..., "r")` call (lines 260-270) -/
  fopenInName : Option String := none
  /-- first filename of an `fopen(..., "w")` call (lines 260-273) -/
  fopenOutName : Option String := none
  deriving DecidableEq, Repr

/-- `FileIODetector._detect_conditional_patterns` (lines 79-102). -/
def detectConditionalPatterns (scan : SourceScan) (r : IoDetectionResult) :
    IoDetectionResult :=
  let r1 :=
    if scan.hasConditionalPattern then
      { r with conditional_io := true, adaptive := true }
    else r
  if scan.hasDocfileFn && scan.hasFreopenText then
    { r1 with conditional_io := true, adaptive := true }
  else r1

/-- `FileIODetector._detect_io_methods` (lines 104-141): the
`(methods, input_methods, output_methods)` lists, in the source's append
order. -/
def detectIoMethods (scan : SourceScan) :
    List String × List String × List String :=
  let ms :=
    (if scan.usesIfstream then ["ifstream"] else []) ++
    (if scan.usesOfstream then ["ofstream"] else []) ++
    (if scan.usesFstream then ["fstream"] else []) ++
    (if scan.usesFreopenIn then ["freopen_stdin"] else []) ++
    (if scan.usesFreopenOut then ["freopen_stdout"] else []) ++
    (if scan.usesFopen then ["fopen"] else [])
  let ims :=
    (if scan.usesIfstream then ["ifstream"] else []) ++
    (if scan.usesFstream then ["fstream"] else []) ++
    (if scan.usesFreopenIn then ["freopen_stdin"] else [])
  let oms :=
    (if scan.usesOfstream then ["ofstream"] else []) ++
    (if scan.usesFstream then ["fstream"] else []) ++
    (if scan.usesFreopenOut then ["freopen_stdout"] else [])
  (ms, ims, oms)

/-- `FileIODetector._detect_cpp_stream_input` (lines 194-218). -/
def detectCppStreamInput (scan : SourceScan) (r : IoDetectionResult) :
    IoDetectionResult :=
  let r1 :=
    match scan.cppStreamInName with
    | some nm => { r with input := some nm }
    | none => r
  if pyFalsy r1.input then
    match scan.openMethodName with
    | some nm => { r1 with input := some nm }
    | none => r1
  else r1

/-- `FileIODetector._detect_cpp_stream_output` (lines 220-234). -/
def detectCppStreamOutput (scan : SourceScan) (r : IoDetectionResult) :
    IoDetectionResult :=
  match scan.cppStreamOutName with
  | some nm => { r with output := some nm }
  | none => r

/-- `FileIODetector._detect_define_macros` (lines 236-255): the first
input-named and output-named `#define` fill the still-unset slots. -/
def detectDefineMacros (scan : SourceScan) (r : IoDetectionResult) :
    IoDetectionResult :=
  let r1 :=
    if pyFalsy r.input then
      match scan.defineInName with
      | some nm => { r with input := some nm }
      | none => r
    else r
  if pyFalsy r1.output then
    match scan.defineOutName with
    | some nm => { r1 with output := some nm }
    | none => r1
  else r1

/-- `FileIODetector._detect_fopen_calls` (lines 257-273): the first
`"r"`-mode and `"w"`-mode `fopen` fill the still-unset slots. -/
def detectFopenCalls (scan : SourceScan) (r : IoDetectionResult) :
    IoDetectionResult :=
  let r1 :=
    if pyFalsy r.input then
      match scan.fopenInName with
      | some nm => { r with input := some nm }
      | none => r
    else r
  if pyFalsy r1.output then
    match scan.fopenOutName with
    | some nm => { r1 with output := some nm }
    | none => r1
  else r1

/-- `FileIODetector._set_default_file_names` (lines 275-309): default
filenames from the NAME macro, the problem id, or `input.txt`/`output.txt`,
guarded by the method flags exactly as in the source. -/
def setDefaultFileNames (r : IoDetectionResult) (nameMacro : Option String)
    (problemId : Option String) (usesIfstream usesOfstream usesFreopenIn
    usesFreopenOut usesFopen : Bool) : IoDetectionResult :=
  let r1 :=
    if pyFalsy r.input && (usesIfstream || usesFreopenIn || usesFopen) then
      { r with input := some (match nameMacro with
          | some nm => nm ++ ".INP"
          | none =>
            match problemId with
            | some pid => pid ++ ".INP"
            | none => "input.txt") }
    else r
  if pyFalsy r1.output && (usesOfstream || usesFreopenOut || usesFopen) then
    { r1 with output := some (match nameMacro with
        | some nm => nm ++ ".OUT"
        | none =>
          match problemId with
          | some pid => pid ++ ".OUT"
          | none => "output.txt") }
  else r1

/-- `FileIODetector._detect_file_names` (lines 143-192): the priority chain
over extraction methods, with the method flags re-derived from the result's
method lists as in lines 152-157. -/
def detectFileNames (scan : SourceScan) (r : IoDetectionResult)
    (problemId nameMacro : Option String) : IoDetectionResult :=
  let usesIfstream := r.input_methods.contains "ifstream"
  let usesOfstream := r.output_methods.contains "ofstream"
  let usesFstream := r.methods.contains "fstream"
  let usesFreopenIn := r.input_methods.contains "freopen_stdin"
  let usesFreopenOut := r.output_methods.contains "freopen_stdout"
  let usesFopen := r.methods.contains "fopen"
  let r1 :=
    if usesFreopenIn || usesFreopenOut then
      let ra :=
        match scan.freopenInName with
        | some nm => { r with input := some nm }
        | none => r
      match scan.freopenOutName with
      | some nm => { ra with output := some nm }
      | none => ra
    else r
  let r2 :=
    if pyFalsy r1.input && (usesIfstream || usesFstream) then
      detectCppStreamInput scan r1
    else r1
  let r3 :=
    if pyFalsy r2.output && (usesOfstream || usesFstream) then
      detectCppStreamOutput scan r2
    else r2
  let r4 :=
    if pyFalsy r3.input || pyFalsy r3.output then detectDefineMacros scan r3
    else r3
  let r5 :=
    if (pyFalsy r4.input || pyFalsy r4.output) && usesFopen then
      detectFopenCalls scan r4
    else r4
  setDefaultFileNames r5 nameMacro problemId usesIfstream usesOfstream
    usesFreopenIn usesFreopenOut usesFopen

/-- The fresh result dictionary of `detect_file_io` (lines 19-27). -/
def freshIoResult : IoDetectionResult := {}

/-- `FileIODetector.detect_file_io` (lines 8-66), as a function of the
regex-scan observations of the source text. -/
def detectFileIo (scan : SourceScan) (problemId : Option String) :
    IoDetectionResult :=
  if !scan.isCOrCpp then freshIoResult
  else if scan.readFails then freshIoResult
  else
    let r1 :=
      match scan.nameMacro with
      | some m =>
        let ra := { freshIoResult with name_macro := some m }
        if scan.hasDocfileText then
          { ra with conditional_io := true, adaptive := true }
        else ra
      | none => freshIoResult
    let r2 := detectConditionalPatterns scan r1
    let mio := detectIoMethods scan
    let r3 := { r2 with methods := mio.1, input_methods := mio.2.1,
                        output_methods := mio.2.2 }
    detectFileNames scan r3 problemId scan.nameMacro

/-- A scan of a source that reads via `ifstream` only: the one observed
method is an input method, and no output filename is extracted. -/
def scanIfstreamOnly : SourceScan :=
  { isCOrCpp := true, usesIfstream := true, cppStreamInName := some "in.txt" }

/-- A scan of a source with a conditional file-I/O pattern (for example
`if (ifstream(...))`): the detector marks it adaptive. -/
def scanConditional : SourceScan :=
  { isCOrCpp := true, hasConditionalPattern := true, usesIfstream := true,
    cppStreamInName := some "data.inp" }

/-! ### Compiler cache (`app/core/modules/processor.py`, `compiler.py`) -/

/-- `str.endswith(suffix)`, evaluated over the character lists. -/
def pyEndsWith (s suffix : String) : Bool := suffix.toList.isSuffixOf s.toList

/-- The compile block of `Processor.process_submission`
(`app/core/modules/processor.py` lines 36-52) acting on the
`_compilation_cache` (a set of source paths): for a C/C++ path not in the
cache, `Compiler.compile` runs one toolchain invocation; success (`True`)
is cached, failure (an error string) returns early without caching.
`toolchainOk` is the toolchain oracle (deterministic for an unchanged
source path).  Returns whether the toolchain was invoked, and the new
cache. -/
def processCompileStep (toolchainOk : String → Bool) (cache : List String)
    (path : String) : Bool × List String :=
  if pyEndsWith path ".c" || pyEndsWith path ".cpp" then
    if cache.contains path then (false, cache)
    else if toolchainOk path then (true, path :: cache)
    else (true, cache)
  else (false, cache)

/-- Number of toolchain invocations over two successive compilations of the
same path, starting from an empty cache. -/
def invocationsTwoCalls (toolchainOk : String → Bool) (path : String) : ℕ :=
  let s1 := processCompileStep toolchainOk [] path
  let s2 := processCompileStep toolchainOk s1.2 path
  (if s1.1 then 1 else 0) + (if s2.1 then 1 else 0)

/-! ### Concurrency companions armed around one child process -/

/-- The concurrent components one child execution arms: the primary
blocking-communicate timeout, the optional force-kill watchdog delay, and
the memory-sampler polling period (seconds). -/
structure RunPlan where
  primaryTimeout : Option ℚ
  watchdogDelay : Option ℚ
  samplerPeriod : Option ℚ
  deriving DecidableEq, Repr

/-- Read off `ProcessManager.run_with_memory_monitoring`
(`app/core/modules/process_manager.py` lines 41-92): a memory-monitor
thread polling every 50 ms and a blocking `communicate(timeout=timeout)`.
No `threading.Timer` is created anywhere in the function. -/
def processManagerRunPlan (timeout : ℚ) : RunPlan :=
  { primaryTimeout := some timeout, watchdogDelay := none,
    samplerPeriod := some (1/20) }

/-- Read off `Evaluator._run_test_case` (`app/core/evaluator.py` lines
259-301): a memory-monitor thread polling every 50 ms, a `threading.Timer`
armed at `settings.time_limit * 1.2` whose callback kills the child, and a
blocking `communicate(timeout=settings.time_limit)`. -/
def evaluatorRunPlan (timeLimit : ℚ) : RunPlan :=
  { primaryTimeout := some timeLimit,
    watchdogDelay := some (timeLimit * (6/5)),
    samplerPeriod := some (1/20) }

/-! ### Submission evaluation (`app/core/evaluator.py`,
`app/models/contestant.py`) -/

/-- The `Contestant` dataclass from `app/models/contestant.py`; the
`solutions` dict is an association list. -/
structure Contestant where
  id : String
  name : String
  directory : String
  solutions : List (String × String) := []
  deriving Repr

/-- `Contestant.has_solution_for` (`contestant.py` lines 12-14). -/
def hasSolutionFor (c : Contestant) (problemId : String) : Bool :=
  (c.solutions.lookup problemId).isSome

/-- `Contestant.get_solution_path` (`contestant.py` lines 16-30): raises
`ValueError` when the problem is absent or when the solution file does not
exist on disk (`isFile` is the host filesystem oracle).  Paths are modelled
as already absolute, so the `os.path.abspath` normalization is the
identity. -/
def getSolutionPath (isFile : String → Bool) (c : Contestant)
    (problemId : String) : Except String String :=
  match c.solutions.lookup problemId with
  | none => .error ("No solution found for problem " ++ problemId)
  | some path =>
    if isFile path then .ok path
    else .error ("Solution file not found: " ++ path)

/-- The `TestCase` dataclass from `app/models/problem.py`. -/
structure TestCase where
  input_path : String
  output_path : String
  weight : ℚ := 1
  deriving DecidableEq, Repr

/-- The `Problem` dataclass from `app/models/problem.py`. -/
structure Problem where
  id : String
  name : String
  directory : String
  test_cases : List TestCase := []
  deriving DecidableEq, Repr

/-- The host world `Evaluator.evaluate_submission` runs in: the filesystem
oracle, the test cases `Problem.load_test_cases` would discover, the
compiler outcome (`Evaluator._compile`, lines 145-182, catches its own
exceptions and returns `True` or an error string, modelled as
`Option String` with `some err` for failure), the per-test-case runner
(`Evaluator._run_test_case`, lines 184-396, whose top-level `try/except`
converts every exception into a `RUNTIME_ERROR` result and therefore
always returns a `TestCaseResult`), and the cooperative stop flag. -/
structure EvalWorld where
  isFile : String → Bool
  loadTestCases : String → List TestCase
  compileResult : String → Option String
  runTestCase : String → TestCase → ProblemSettings → TestCaseResult
  problemSettings : String → ProblemSettings
  stopRequested : Bool := false

/-- The top-level `try/except` of `Evaluator._run_test_case` (lines 186 and
386-396): any exception raised by the body is converted into a
`RUNTIME_ERROR` test-case result carrying the exception message, so
host/filesystem errors while reading the input or expected-output files
never escape the test-case boundary. -/
def runTestCaseCatching (body : Except String TestCaseResult) : TestCaseResult :=
  match body with
  | .ok tc => tc
  | .error e =>
    { status := .runtime_error, execution_time := 0, memory_used := 0,
      error_message := e }

/-- `Evaluator.evaluate_submission` (`evaluator.py` lines 77-143).  The
`Except` return models Python exceptions escaping the function: the only
reachable uncaught raise in the body is the `ValueError` from
`Contestant.get_solution_path` (line 88 has no enclosing `try`). -/
def evaluateSubmission (w : EvalWorld) (c : Contestant) (p : Problem) :
    Except String SubmissionResult :=
  let result : SubmissionResult := { contestant_id := c.id, problem_id := p.id }
  if ¬ hasSolutionFor c p.id then .ok { result with status := .pending }
  else
    match getSolutionPath w.isFile c p.id with
    | .error e => .error e
    | .ok solutionPath =>
      let settings := w.problemSettings p.id
      let testCases :=
        if p.test_cases = [] then w.loadTestCases p.id else p.test_cases
      if testCases = [] then .ok { result with status := .pending }
      else
        let weights := testCases.map (·.weight)
        let runAll : Unit → Except String SubmissionResult := fun _ =>
          let tcrs :=
            if w.stopRequested then []
            else testCases.map (fun tc => w.runTestCase solutionPath tc settings)
          if tcrs ≠ [] then
            .ok (calculateScore { result with test_case_results := tcrs }
              (some weights))
          else .ok { result with status := .pending }
        if pyEndsWith solutionPath ".c" || pyEndsWith solutionPath ".cpp" then
          match w.compileResult solutionPath with
          | some err =>
            .ok { result with
                  status := SubmissionStatus.compilation_error,
                  test_case_results :=
                    [{ status := SubmissionStatus.compilation_error,
                       execution_time := 0, memory_used := 0,
                       error_message := err }] }
          | none => runAll ()
        else runAll ()

/-- A host world in which no file exists on disk. -/
def worldMissingFile : EvalWorld :=
  { isFile := fun _ => false, loadTestCases := fun _ => [],
    compileResult := fun _ => none, runTestCase := fun _ _ _ => {},
    problemSettings := fun _ => {} }

/-- A contestant whose solutions dict maps problem `P1` to a path. -/
def contestantAlice : Contestant :=
  { id := "alice", name := "Alice", directory := "/sols/alice",
    solutions := [("P1", "/sols/alice/P1.cpp")] }

/-- Problem `P1` with no preloaded test cases. -/
def problemP1 : Problem :=
  { id := "P1", name := "P1", directory := "/probs/P1" }

/-- Unfolding lemma: the status computed by `calculateScore` on a non-empty
result list. -/
theorem calculateScore_status_eq (r : SubmissionResult) (w : Option (List ℚ))
    (h : ¬ r.test_case_results = []) :
    (calculateScore r w).status =
      (if r.test_case_results.all
          (fun tc => decide (tc.status = SubmissionStatus.correct)) then
        SubmissionStatus.correct
      else
        (statusPriority.find?
          (fun s => r.test_case_results.any (fun tc => decide (tc.status = s)))).getD
          SubmissionStatus.wrong_answer) := by
  rw [calculateScore, if_neg h]
  cases hfind : statusPriority.find?
      (fun s => r.test_case_results.any (fun tc => decide (tc.status = s))) <;>
    simp [hfind]

/-- Any status found in the priority list is not `CORRECT`
(`CORRECT` is absent from the list). -/
theorem find?_statusPriority_ne_correct {p : SubmissionStatus → Bool}
    {s : SubmissionStatus} (hf : statusPriority.find? p = some s) :
    s ≠ SubmissionStatus.correct := by
  have hm := List.mem_of_find?_eq_some hf
  simp only [statusPriority, List.mem_cons, List.not_mem_nil, or_false] at hm
  rcases hm with h | h | h | h | h <;> subst h <;> decide

/-- **C1.** For a non-empty list of test-case results, `calculate_score` sets
the final status to `CORRECT` iff every test-case status is `CORRECT`;
otherwise it sets the first status of the priority list
`[COMPILATION_ERROR, RUNTIME_ERROR, TIME_LIMIT_EXCEEDED, MEMORY_LIMIT_EXCEEDED,
WRONG_ANSWER]` that occurs among the test-case statuses, falling back to
`WRONG_ANSWER`; for an empty list it sets `PENDING` with both scores zero. -/
theorem calculate_score_status_reduction (r : SubmissionResult)
    (weights : Option (List ℚ)) :
    (r.test_case_results = [] →
      (calculateScore r weights).status = SubmissionStatus.pending ∧
      (calculateScore r weights).score = 0 ∧
      (calculateScore r weights).max_score = 0) ∧
    (r.test_case_results ≠ [] →
      (((calculateScore r weights).status = SubmissionStatus.correct ↔
          ∀ tc ∈ r.test_case_results, tc.status = SubmissionStatus.correct) ∧
        (¬ (∀ tc ∈ r.test_case_results, tc.status = SubmissionStatus.correct) →
          (calculateScore r weights).status =
            (([SubmissionStatus.compilation_error, SubmissionStatus.runtime_error,
               SubmissionStatus.time_limit_exceeded,
               SubmissionStatus.memory_limit_exceeded,
               SubmissionStatus.wrong_answer].find?
                (fun s => r.test_case_results.any
                  (fun tc => decide (tc.status = s)))).getD
              SubmissionStatus.wrong_answer)))) := by
  refine ⟨fun h => ?_, fun h => ?_⟩
  · simp [calculateScore, h]
  · have hs := calculateScore_status_eq r weights h
    by_cases hall : ∀ tc ∈ r.test_case_results,
        tc.status = SubmissionStatus.correct
    · have hb : r.test_case_results.all
          (fun tc => decide (tc.status = SubmissionStatus.correct)) = true := by
        simpa [List.all_eq_true] using hall
      rw [hb, if_pos rfl] at hs
      exact ⟨⟨fun _ => hall, fun _ => hs⟩, fun hc => absurd hall hc⟩
    · have hb : r.test_case_results.all
          (fun tc => decide (tc.status = SubmissionStatus.correct)) = false := by
        rw [← Bool.not_eq_true]
        simpa [List.all_eq_true] using hall
      rw [hb] at hs
      simp only [Bool.false_eq_true, if_false] at hs
      have hne : (calculateScore r weights).status ≠ SubmissionStatus.correct := by
        rw [hs]
        cases hfind : statusPriority.find?
            (fun s => r.test_case_results.any (fun tc => decide (tc.status = s))) with
        | none => simp
        | some s =>
          simpa using find?_statusPriority_ne_correct hfind
      exact ⟨⟨fun hc => absurd hc hne, fun hc => absurd hc hall⟩, fun _ => hs⟩

/-- Witness for C1: a mixed result list (CORRECT, WRONG_ANSWER,
TIME_LIMIT_EXCEEDED) reduces to `TIME_LIMIT_EXCEEDED`. -/
theorem calculate_score_status_reduction_witness :
    (calculateScore
      { contestant_id := "a", problem_id := "p",
        test_case_results := [{ status := .correct }, { status := .wrong_answer },
                              { status := .time_limit_exceeded }] }
      none).status = SubmissionStatus.time_limit_exceeded := by
  have h := (calculate_score_status_reduction
    { contestant_id := "a", problem_id := "p",
      test_case_results := [{ status := .correct }, { status := .wrong_answer },
                            { status := .time_limit_exceeded }] }
    none).2 (by decide)
  rw [h.2 (by decide)]
  decide

/-- Unfolding lemma: the score computed by `calculateScore` on a non-empty
result list. -/
theorem calculateScore_score_eq (r : SubmissionResult) (w : Option (List ℚ))
    (h : ¬ r.test_case_results = []) :
    (calculateScore r w).score =
      sumCorrectWeights (effectiveWeights w r.test_case_results.length)
        r.test_case_results := by
  rw [calculateScore, if_neg h]

/-- Unfolding lemma: the maximum score computed by `calculateScore` on a
non-empty result list. -/
theorem calculateScore_max_score_eq (r : SubmissionResult) (w : Option (List ℚ))
    (h : ¬ r.test_case_results = []) :
    (calculateScore r w).max_score =
      (effectiveWeights w r.test_case_results.length).sum := by
  rw [calculateScore, if_neg h]

/-- The enumerate-and-filter sum equals the sum over the zipped lists. -/
theorem sumCorrectWeights_eq_zip_sum :
    ∀ (ws : List ℚ) (tcs : List TestCaseResult),
      sumCorrectWeights ws tcs =
        ((ws.zip tcs).map
          (fun p => if p.2.status = SubmissionStatus.correct then p.1 else 0)).sum
  | [], [] => by simp [sumCorrectWeights]
  | [], _ :: _ => by simp [sumCorrectWeights]
  | _ :: _, [] => by simp [sumCorrectWeights]
  | w :: ws, tc :: tcs => by
      simp [sumCorrectWeights, sumCorrectWeights_eq_zip_sum ws tcs]

/-- With non-negative weights, the filtered sum is bounded by the full sum. -/
theorem sumCorrectWeights_le_sum :
    ∀ (ws : List ℚ) (tcs : List TestCaseResult), (∀ x ∈ ws, 0 ≤ x) →
      sumCorrectWeights ws tcs ≤ ws.sum
  | [], tcs, _ => by simp [sumCorrectWeights]
  | w :: ws, [], hw => by
      simp only [sumCorrectWeights, List.sum_cons]
      have h0 : (0 : ℚ) ≤ w := hw w (List.mem_cons_self _ _)
      have h1 : (0 : ℚ) ≤ ws.sum :=
        List.sum_nonneg (fun x hx => hw x (List.mem_cons_of_mem _ hx))
      linarith
  | w :: ws, tc :: tcs, hw => by
      simp only [sumCorrectWeights, List.sum_cons]
      have ih := sumCorrectWeights_le_sum ws tcs
        (fun x hx => hw x (List.mem_cons_of_mem _ hx))
      have h0 : (0 : ℚ) ≤ w := hw w (List.mem_cons_self _ _)
      by_cases hc : tc.status = SubmissionStatus.correct
      · rw [if_pos hc]; linarith
      · rw [if_neg hc]; linarith

/-- **C2.** With a weights list matching the number of test cases,
`calculate_score` sets `max_score = Σ weights` and
`score = Σ weights[i] where status_i == CORRECT`; with non-negative weights,
`score ≤ max_score`. -/
theorem calculate_score_weighted (r : SubmissionResult) (w : List ℚ)
    (h1 : r.test_case_results ≠ [])
    (h2 : w.length = r.test_case_results.length) :
    (calculateScore r (some w)).max_score = w.sum ∧
    (calculateScore r (some w)).score =
      ((w.zip r.test_case_results).map
        (fun p => if p.2.status = SubmissionStatus.correct then p.1 else 0)).sum ∧
    ((∀ x ∈ w, 0 ≤ x) →
      (calculateScore r (some w)).score ≤ (calculateScore r (some w)).max_score) := by
  have hw : effectiveWeights (some w) r.test_case_results.length = w := by
    simp [effectiveWeights, h2]
  refine ⟨?_, ?_, ?_⟩
  · rw [calculateScore_max_score_eq r _ h1, hw]
  · rw [calculateScore_score_eq r _ h1, hw, sumCorrectWeights_eq_zip_sum]
  · intro hnn
    rw [calculateScore_score_eq r _ h1, calculateScore_max_score_eq r _ h1, hw]
    exact sumCorrectWeights_le_sum w r.test_case_results hnn

/-- Witness for C2: weights `[2, 3]` over statuses (CORRECT, WRONG_ANSWER)
give `max_score = 5` and `score = 2`. -/
theorem calculate_score_weighted_witness :
    (calculateScore
      { contestant_id := "a", problem_id := "p",
        test_case_results := [{ status := .correct }, { status := .wrong_answer }] }
      (some [2, 3])).max_score = 5 ∧
    (calculateScore
      { contestant_id := "a", problem_id := "p",
        test_case_results := [{ status := .correct }, { status := .wrong_answer }] }
      (some [2, 3])).score = 2 := by
  obtain ⟨hm, hsc, hle⟩ := calculate_score_weighted
    { contestant_id := "a", problem_id := "p",
      test_case_results := [{ status := .correct }, { status := .wrong_answer }] }
    [2, 3] (by decide) (by decide)
  constructor
  · rw [hm]; norm_num
  · rw [hsc]
    norm_num
    decide

/-- If the supplied weights are `None` or of mismatched length, equal weights
of `1.0` are used. -/
theorem effectiveWeights_default (weights : Option (List ℚ)) (n : ℕ)
    (h : ∀ w, weights = some w → w.length ≠ n) :
    effectiveWeights weights n = List.replicate n 1 := by
  cases weights with
  | none => rfl
  | some w => simp [effectiveWeights, h w rfl]

/-- Summing unit weights over the correct test cases counts them. -/
theorem sumCorrectWeights_replicate_one :
    ∀ tcs : List TestCaseResult,
      sumCorrectWeights (List.replicate tcs.length 1) tcs =
        (tcs.countP (fun tc => decide (tc.status = SubmissionStatus.correct)) : ℚ)
  | [] => by simp [sumCorrectWeights]
  | tc :: tcs => by
      simp only [List.length_cons, List.replicate_succ, sumCorrectWeights,
        List.countP_cons, sumCorrectWeights_replicate_one tcs]
      by_cases hc : tc.status = SubmissionStatus.correct
      · simp [hc]
        ring
      · simp [hc]

/-- **C10.** With `weights=None` or a mismatched length, `calculate_score`
substitutes a weight of `1.0` per test case: `max_score = N` and `score` is
the number of CORRECT test-case results. -/
theorem calculate_score_default_weights (r : SubmissionResult)
    (weights : Option (List ℚ)) (h1 : r.test_case_results ≠ [])
    (h2 : ∀ w, weights = some w → w.length ≠ r.test_case_results.length) :
    (calculateScore r weights).max_score = (r.test_case_results.length : ℚ) ∧
    (calculateScore r weights).score =
      (r.test_case_results.countP
        (fun tc => decide (tc.status = SubmissionStatus.correct)) : ℚ) := by
  have hw := effectiveWeights_default weights r.test_case_results.length h2
  constructor
  · rw [calculateScore_max_score_eq r _ h1, hw, List.sum_replicate]
    simp
  · rw [calculateScore_score_eq r _ h1, hw, sumCorrectWeights_replicate_one]

/-- Witness for C10: two test cases, one CORRECT, weights of length 1
(mismatch), give `max_score = 2` and `score = 1`. -/
theorem calculate_score_default_weights_witness :
    (calculateScore
      { contestant_id := "a", problem_id := "p",
        test_case_results := [{ status := .correct }, { status := .wrong_answer }] }
      (some [5])).max_score = 2 ∧
    (calculateScore
      { contestant_id := "a", problem_id := "p",
        test_case_results := [{ status := .correct }, { status := .wrong_answer }] }
      (some [5])).score = 1 := by
  obtain ⟨hm, hsc⟩ := calculate_score_default_weights
    { contestant_id := "a", problem_id := "p",
      test_case_results := [{ status := .correct }, { status := .wrong_answer }] }
    (some [5]) (by decide) (by intro w hw; cases hw; decide)
  constructor
  · rw [hm]; norm_num
  · rw [hsc]
    norm_num [List.countP_cons]
    decide

/-- **C4, counterexample.** The comparison as the spec words it (trim only
*trailing* whitespace) disagrees with the code on `actual = "\na"`,
`expected = "a"`: the code strips the leading newline and judges them equal,
while the trailing-trim rule sees two lines versus one. -/
theorem compare_output_trailing_counterexample :
    compareOutput "\na" "a" = true ∧ ¬ specCompareTrailing "\na" "a" := by
  constructor
  · decide
  · unfold specCompareTrailing
    decide

/-- **C4, amended.** The code's comparison judges two outputs equal iff,
after trimming *leading and trailing* whitespace, both have the same number
of lines and corresponding lines are equal after stripping. -/
theorem compare_output_iff_stripped (actual expected : String) :
    compareOutput actual expected = true ↔ specCompareStripped actual expected := by
  unfold compareOutput specCompareStripped
  by_cases hlen : (splitLines (pyStrip actual.toList)).length =
      (splitLines (pyStrip expected.toList)).length
  · simp [hlen, List.all_eq_true]
  · simp [hlen]

/-- **C3.** `TestRunner.run_test_case` classifies a run in priority order:
sentinel exit code `-1` with elapsed ≥ time limit gives
`TIME_LIMIT_EXCEEDED` with the reported time pinned to the limit (and the
tuple `ProcessManager` returns on timeout always lands in this case); then
peak memory above the limit gives `MEMORY_LIMIT_EXCEEDED` (even when the
exit code is non-zero); then a non-zero exit gives `RUNTIME_ERROR` carrying
stderr; otherwise the output comparison decides `CORRECT` or
`WRONG_ANSWER`. -/
theorem run_test_case_classification (settings : ProblemSettings)
    (inputData expectedOutput stderr procStdout : String)
    (executionTime maxMemory : ℚ) (returncode : ℤ) (actualOutput : String) :
    ((returncode = -1 ∧ settings.time_limit ≤ executionTime) →
      (classifyRun settings inputData expectedOutput stderr executionTime
          maxMemory returncode actualOutput).status =
        SubmissionStatus.time_limit_exceeded ∧
      (classifyRun settings inputData expectedOutput stderr executionTime
          maxMemory returncode actualOutput).execution_time =
        settings.time_limit) ∧
    (¬ (returncode = -1 ∧ settings.time_limit ≤ executionTime) →
      settings.memory_limit < maxMemory →
      (classifyRun settings inputData expectedOutput stderr executionTime
          maxMemory returncode actualOutput).status =
        SubmissionStatus.memory_limit_exceeded) ∧
    (¬ (returncode = -1 ∧ settings.time_limit ≤ executionTime) →
      ¬ settings.memory_limit < maxMemory → returncode ≠ 0 →
      (classifyRun settings inputData expectedOutput stderr executionTime
          maxMemory returncode actualOutput).status =
        SubmissionStatus.runtime_error ∧
      (classifyRun settings inputData expectedOutput stderr executionTime
          maxMemory returncode actualOutput).error_message = stderr) ∧
    (¬ (returncode = -1 ∧ settings.time_limit ≤ executionTime) →
      ¬ settings.memory_limit < maxMemory → returncode = 0 →
      (classifyRun settings inputData expectedOutput stderr executionTime
          maxMemory returncode actualOutput).status =
        (if compareOutput actualOutput expectedOutput then
          SubmissionStatus.correct
        else SubmissionStatus.wrong_answer)) ∧
    ((classifyRun settings inputData expectedOutput
        (processManagerTimeoutOutcome procStdout stderr settings.time_limit
          maxMemory).stderr
        (processManagerTimeoutOutcome procStdout stderr settings.time_limit
          maxMemory).execution_time
        maxMemory
        (processManagerTimeoutOutcome procStdout stderr settings.time_limit
          maxMemory).returncode
        "").status = SubmissionStatus.time_limit_exceeded ∧
      (classifyRun settings inputData expectedOutput
        (processManagerTimeoutOutcome procStdout stderr settings.time_limit
          maxMemory).stderr
        (processManagerTimeoutOutcome procStdout stderr settings.time_limit
          maxMemory).execution_time
        maxMemory
        (processManagerTimeoutOutcome procStdout stderr settings.time_limit
          maxMemory).returncode
        "").execution_time = settings.time_limit) := by
  refine ⟨fun h => ?_, fun h hm => ?_, fun h hm hr => ?_, fun h hm hr => ?_, ?_⟩
  · unfold classifyRun
    rw [if_pos h]
    exact ⟨rfl, rfl⟩
  · unfold classifyRun
    rw [if_neg h, if_pos hm]
  · unfold classifyRun
    rw [if_neg h, if_neg hm, if_pos hr]
    exact ⟨rfl, rfl⟩
  · have hr' : ¬ returncode ≠ 0 := by simpa using hr
    unfold classifyRun
    rw [if_neg h, if_neg hm, if_neg hr']
    by_cases hc : compareOutput actualOutput expectedOutput
    · rw [if_pos hc, if_pos hc]
    · rw [if_neg hc, if_neg hc]
  · unfold classifyRun processManagerTimeoutOutcome
    rw [if_pos ⟨rfl, le_refl _⟩]
    exact ⟨rfl, rfl⟩

/-- Witness for C3: a run that both exceeds the memory limit (600 MB > 512 MB)
and exits non-zero (code 5) is classified `MEMORY_LIMIT_EXCEEDED`. -/
theorem run_test_case_classification_witness :
    (classifyRun {} "in" "exp" "boom" (1/2) 600 5 "act").status =
      SubmissionStatus.memory_limit_exceeded :=
  ((run_test_case_classification {} "in" "exp" "boom" "" (1/2) 600 5 "act").2.1)
    (by norm_num) (by norm_num)

/-- Projection of an `if` through the `output` field. -/
theorem output_ite {c : Prop} [Decidable c] {a b : IoDetectionResult}
    {x : Option String} (ha : a.output = x) (hb : b.output = x) :
    (if c then a else b).output = x := by
  split <;> assumption

/-- Projection of an `if` through the `conditional_io` field. -/
theorem conditional_ite {c : Prop} [Decidable c] {a b : IoDetectionResult}
    {x : Bool} (ha : a.conditional_io = x) (hb : b.conditional_io = x) :
    (if c then a else b).conditional_io = x := by
  split <;> assumption

/-- Projection of an `if` through the `adaptive` field. -/
theorem adaptive_ite {c : Prop} [Decidable c] {a b : IoDetectionResult}
    {x : Bool} (ha : a.adaptive = x) (hb : b.adaptive = x) :
    (if c then a else b).adaptive = x := by
  split <;> assumption

/-- `_detect_conditional_patterns` only writes the two flag fields. -/
theorem detectConditionalPatterns_output (scan : SourceScan)
    (r : IoDetectionResult) :
    (detectConditionalPatterns scan r).output = r.output := by
  unfold detectConditionalPatterns
  split_ifs <;> rfl

/-- `_detect_cpp_stream_input` only writes the `input` field. -/
theorem detectCppStreamInput_output (scan : SourceScan) (r : IoDetectionResult) :
    (detectCppStreamInput scan r).output = r.output := by
  unfold detectCppStreamInput
  rcases scan.cppStreamInName with _ | a <;> rcases scan.openMethodName with _ | b <;>
    (dsimp only; split_ifs <;> rfl)

/-- `_detect_cpp_stream_input` preserves `conditional_io`. -/
theorem detectCppStreamInput_conditional (scan : SourceScan)
    (r : IoDetectionResult) :
    (detectCppStreamInput scan r).conditional_io = r.conditional_io := by
  unfold detectCppStreamInput
  rcases scan.cppStreamInName with _ | a <;> rcases scan.openMethodName with _ | b <;>
    (dsimp only; split_ifs <;> rfl)

/-- `_detect_cpp_stream_input` preserves `adaptive`. -/
theorem detectCppStreamInput_adaptive (scan : SourceScan) (r : IoDetectionResult) :
    (detectCppStreamInput scan r).adaptive = r.adaptive := by
  unfold detectCppStreamInput
  rcases scan.cppStreamInName with _ | a <;> rcases scan.openMethodName with _ | b <;>
    (dsimp only; split_ifs <;> rfl)

/-- `_detect_cpp_stream_output` preserves `conditional_io`. -/
theorem detectCppStreamOutput_conditional (scan : SourceScan)
    (r : IoDetectionResult) :
    (detectCppStreamOutput scan r).conditional_io = r.conditional_io := by
  unfold detectCppStreamOutput
  rcases scan.cppStreamOutName with _ | a <;> rfl

/-- `_detect_cpp_stream_output` preserves `adaptive`. -/
theorem detectCppStreamOutput_adaptive (scan : SourceScan)
    (r : IoDetectionResult) :
    (detectCppStreamOutput scan r).adaptive = r.adaptive := by
  unfold detectCppStreamOutput
  rcases scan.cppStreamOutName with _ | a <;> rfl

/-- When no output stream filename was matched, `_detect_cpp_stream_output`
is the identity on the `output` field. -/
theorem detectCppStreamOutput_output (scan : SourceScan) (r : IoDetectionResult)
    (h : scan.cppStreamOutName = none) :
    (detectCppStreamOutput scan r).output = r.output := by
  unfold detectCppStreamOutput
  rw [h]

/-- `_detect_define_macros` preserves `conditional_io`. -/
theorem detectDefineMacros_conditional (scan : SourceScan)
    (r : IoDetectionResult) :
    (detectDefineMacros scan r).conditional_io = r.conditional_io := by
  unfold detectDefineMacros
  rcases scan.defineInName with _ | a <;> rcases scan.defineOutName with _ | b <;>
    (dsimp only; split_ifs <;> rfl)

/-- `_detect_define_macros` preserves `adaptive`. -/
theorem detectDefineMacros_adaptive (scan : SourceScan) (r : IoDetectionResult) :
    (detectDefineMacros scan r).adaptive = r.adaptive := by
  unfold detectDefineMacros
  rcases scan.defineInName with _ | a <;> rcases scan.defineOutName with _ | b <;>
    (dsimp only; split_ifs <;> rfl)

/-- With no output-named define matched, `_detect_define_macros` preserves
the `output` field. -/
theorem detectDefineMacros_output (scan : SourceScan) (r : IoDetectionResult)
    (h : scan.defineOutName = none) :
    (detectDefineMacros scan r).output = r.output := by
  unfold detectDefineMacros
  rw [h]
  rcases scan.defineInName with _ | a <;> (dsimp only; split_ifs <;> rfl)

/-- `_detect_fopen_calls` preserves `conditional_io`. -/
theorem detectFopenCalls_conditional (scan : SourceScan) (r : IoDetectionResult) :
    (detectFopenCalls scan r).conditional_io = r.conditional_io := by
  unfold detectFopenCalls
  rcases scan.fopenInName with _ | a <;> rcases scan.fopenOutName with _ | b <;>
    (dsimp only; split_ifs <;> rfl)

/-- `_detect_fopen_calls` preserves `adaptive`. -/
theorem detectFopenCalls_adaptive (scan : SourceScan) (r : IoDetectionResult) :
    (detectFopenCalls scan r).adaptive = r.adaptive := by
  unfold detectFopenCalls
  rcases scan.fopenInName with _ | a <;> rcases scan.fopenOutName with _ | b <;>
    (dsimp only; split_ifs <;> rfl)

/-- With no `"w"`-mode fopen filename matched, `_detect_fopen_calls`
preserves the `output` field. -/
theorem detectFopenCalls_output (scan : SourceScan) (r : IoDetectionResult)
    (h : scan.fopenOutName = none) :
    (detectFopenCalls scan r).output = r.output := by
  unfold detectFopenCalls
  rw [h]
  rcases scan.fopenInName with _ | a <;> (dsimp only; split_ifs <;> rfl)

/-- `_set_default_file_names` preserves `conditional_io`. -/
theorem setDefaultFileNames_conditional (r : IoDetectionResult)
    (nm pid : Option String) (ui uo ufi ufo uf : Bool) :
    (setDefaultFileNames r nm pid ui uo ufi ufo uf).conditional_io =
      r.conditional_io := by
  unfold setDefaultFileNames
  dsimp only
  split_ifs <;> rfl

/-- `_set_default_file_names` preserves `adaptive`. -/
theorem setDefaultFileNames_adaptive (r : IoDetectionResult)
    (nm pid : Option String) (ui uo ufi ufo uf : Bool) :
    (setDefaultFileNames r nm pid ui uo ufi ufo uf).adaptive = r.adaptive := by
  unfold setDefaultFileNames
  dsimp only
  split_ifs <;> rfl

/-- When no output method was detected (no ofstream, no freopen-stdout, no
fopen), `_set_default_file_names` leaves the `output` field unchanged. -/
theorem setDefaultFileNames_output (r : IoDetectionResult)
    (nm pid : Option String) (ui uo ufi ufo uf : Bool)
    (huo : uo = false) (hufo : ufo = false) (huf : uf = false) :
    (setDefaultFileNames r nm pid ui uo ufi ufo uf).output = r.output := by
  subst huo hufo huf
  unfold setDefaultFileNames
  dsimp only
  split_ifs <;> simp_all

/-- `_detect_file_names` preserves `conditional_io`. -/
theorem detectFileNames_conditional (scan : SourceScan) (r : IoDetectionResult)
    (pid nm : Option String) :
    (detectFileNames scan r pid nm).conditional_io = r.conditional_io := by
  unfold detectFileNames
  dsimp only
  rw [setDefaultFileNames_conditional]
  rcases scan.freopenInName with _ | a <;> rcases scan.freopenOutName with _ | b <;>
    (dsimp only;
     repeat
       first
       | rfl
       | rw [detectFopenCalls_conditional]
       | rw [detectDefineMacros_conditional]
       | rw [detectCppStreamInput_conditional]
       | rw [detectCppStreamOutput_conditional]
       | apply conditional_ite)

/-- `_detect_file_names` preserves `adaptive`. -/
theorem detectFileNames_adaptive (scan : SourceScan) (r : IoDetectionResult)
    (pid nm : Option String) :
    (detectFileNames scan r pid nm).adaptive = r.adaptive := by
  unfold detectFileNames
  dsimp only
  rw [setDefaultFileNames_adaptive]
  rcases scan.freopenInName with _ | a <;> rcases scan.freopenOutName with _ | b <;>
    (dsimp only;
     repeat
       first
       | rfl
       | rw [detectFopenCalls_adaptive]
       | rw [detectDefineMacros_adaptive]
       | rw [detectCppStreamInput_adaptive]
       | rw [detectCppStreamOutput_adaptive]
       | apply adaptive_ite)

/-- When no output method is among the detected method lists and no explicit
output filename was extracted, `_detect_file_names` leaves the `output` field
unchanged. -/
theorem detectFileNames_output (scan : SourceScan) (r : IoDetectionResult)
    (pid nm : Option String)
    (h1 : r.output_methods.contains "ofstream" = false)
    (h3 : r.output_methods.contains "freopen_stdout" = false)
    (h4 : r.methods.contains "fopen" = false)
    (h5 : scan.freopenOutName = none) (h6 : scan.cppStreamOutName = none)
    (h7 : scan.defineOutName = none) (h8 : scan.fopenOutName = none) :
    (detectFileNames scan r pid nm).output = r.output := by
  unfold detectFileNames
  dsimp only
  rw [h5]
  rw [setDefaultFileNames_output _ _ _ _ _ _ _ _ h1 h3 h4]
  rcases scan.freopenInName with _ | a <;>
    (dsimp only;
     repeat
       first
       | rfl
       | rw [detectFopenCalls_output scan _ h8]
       | rw [detectDefineMacros_output scan _ h7]
       | rw [detectCppStreamOutput_output scan _ h6]
       | rw [detectCppStreamInput_output]
       | apply output_ite)

/-- **C8.** For a source in which the detector observes only input methods
(every detected method is classified as an input method and no detected
method is an output method, which in particular excludes the
direction-ambiguous `fopen`) and extracts no explicit output filename, the
detection result's output filename remains unset: no default output name is
fabricated. -/
theorem detect_file_io_no_output_fabrication (scan : SourceScan)
    (pid : Option String)
    (hout : (detectIoMethods scan).2.2 = [])
    (hinp : ∀ m ∈ (detectIoMethods scan).1, m ∈ (detectIoMethods scan).2.1)
    (h5 : scan.freopenOutName = none) (h6 : scan.cppStreamOutName = none)
    (h7 : scan.defineOutName = none) (h8 : scan.fopenOutName = none) :
    (detectFileIo scan pid).output = none := by
  have hof : scan.usesOfstream = false := by
    cases hb : scan.usesOfstream
    · rfl
    · exfalso; rw [detectIoMethods] at hout; simp [hb] at hout
  have hfs : scan.usesFstream = false := by
    cases hb : scan.usesFstream
    · rfl
    · exfalso; rw [detectIoMethods] at hout; simp [hb] at hout
  have hfo : scan.usesFreopenOut = false := by
    cases hb : scan.usesFreopenOut
    · rfl
    · exfalso; rw [detectIoMethods] at hout; simp [hb] at hout
  have hfp : scan.usesFopen = false := by
    cases hb : scan.usesFopen
    · rfl
    · exfalso
      have hm : "fopen" ∈ (detectIoMethods scan).1 := by
        simp [detectIoMethods, hb]
      have him := hinp _ hm
      rcases hui : scan.usesIfstream <;> rcases hufi : scan.usesFreopenIn <;>
        simp [detectIoMethods, hfs, hui, hufi] at him
  unfold detectFileIo
  cases hcc : scan.isCOrCpp
  · simp [freshIoResult]
  · cases hrf : scan.readFails
    · simp only [Bool.not_true, Bool.false_eq_true, if_false, hrf, if_neg]
      rw [detectFileNames_output]
      · -- the base result before filename detection has no output filename
        rw [detectConditionalPatterns_output]
        rcases scan.nameMacro with _ | m
        · rfl
        · dsimp only
          split_ifs <;> rfl
      · simp [detectIoMethods, hof, hfs, hfo]
      · simp [detectIoMethods, hof, hfs, hfo]
      · rcases hui : scan.usesIfstream <;> rcases hufi : scan.usesFreopenIn <;>
          simp [detectIoMethods, hof, hfs, hfo, hfp, hui, hufi]
      · exact h5
      · exact h6
      · exact h7
      · exact h8
    · simp [freshIoResult]

/-- Witness for C8: a source observed to use only `ifstream` (an input
method), with no output filename extracted, keeps `output = None`. -/
theorem detect_file_io_no_output_fabrication_witness :
    (detectFileIo scanIfstreamOnly (some "P1")).output = none :=
  detect_file_io_no_output_fabrication scanIfstreamOnly (some "P1")
    (by decide) (by decide) rfl rfl rfl rfl

/-- `_detect_conditional_patterns` preserves the invariant that `adaptive`
implies `conditional_io` (it always sets the two flags together). -/
theorem detectConditionalPatterns_invariant (scan : SourceScan)
    (r : IoDetectionResult) (h : r.adaptive = true → r.conditional_io = true) :
    (detectConditionalPatterns scan r).adaptive = true →
      (detectConditionalPatterns scan r).conditional_io = true := by
  unfold detectConditionalPatterns
  dsimp only
  split_ifs <;> simp_all

/-- **C9.** Every detection result returned by `detect_file_io` satisfies
the invariant: if the `adaptive` flag is set then so is `conditional_io`. -/
theorem detect_file_io_adaptive_implies_conditional (scan : SourceScan)
    (pid : Option String) (h : (detectFileIo scan pid).adaptive = true) :
    (detectFileIo scan pid).conditional_io = true := by
  unfold detectFileIo at h ⊢
  cases hcc : scan.isCOrCpp
  · rw [hcc] at h
    simp [freshIoResult] at h
  · rw [hcc] at h
    cases hrf : scan.readFails
    · rw [hrf] at h
      simp only [Bool.not_true, Bool.false_eq_true, if_false, hcc, hrf,
        if_neg] at h ⊢
      rw [detectFileNames_conditional]
      rw [detectFileNames_adaptive] at h
      dsimp only at h ⊢
      refine detectConditionalPatterns_invariant scan _ ?_ h
      rcases scan.nameMacro with _ | m
      · intro hh
        simp [freshIoResult] at hh
      · cases hdt : scan.hasDocfileText
        · intro hh
          simp [freshIoResult] at hh
        · intro _
          simp
    · rw [hrf] at h
      simp [freshIoResult] at h

/-- Witness for C9: a scan with a conditional-I/O pattern yields
`adaptive = true`, and the theorem forces `conditional_io = true`. -/
theorem detect_file_io_adaptive_implies_conditional_witness :
    (detectFileIo scanConditional none).conditional_io = true :=
  detect_file_io_adaptive_implies_conditional scanConditional none (by decide)

/-- **C5** (failing evaluation, plus the per-test-case conversion that does
hold).  When the solutions dict maps `P1` to a path that is not a file on
disk, `evaluate_submission` propagates the `ValueError` raised by
`Contestant.get_solution_path` instead of returning a `SubmissionResult`;
meanwhile, inside a test case, any host error is converted to a
`RUNTIME_ERROR` result by the catch-all of `_run_test_case`. -/
theorem evaluate_submission_error_boundary :
    evaluateSubmission worldMissingFile contestantAlice problemP1 =
      .error "Solution file not found: /sols/alice/P1.cpp" ∧
    ∀ e : String, runTestCaseCatching (.error e) =
      { status := .runtime_error, execution_time := 0, memory_used := 0,
        error_message := e } :=
  ⟨rfl, fun _ => rfl⟩

/-- **C6, counterexample.** The Process Runner
(`ProcessManager.run_with_memory_monitoring`) arms no watchdog timer at all:
at `timeout = 1` its watchdog slot is `none`, not `1 × 1.2`. -/
theorem process_runner_watchdog_counterexample :
    ¬ (processManagerRunPlan 1).watchdogDelay = some (1 * (6 / 5)) := by
  simp [processManagerRunPlan]

/-- **C6, amended.** The watchdog timer at `time_limit × 1.2` that
force-kills a still-alive child is armed by the legacy
`Evaluator._run_test_case` execution path, in addition to its primary
blocking wait with timeout `time_limit`; the modular Process Runner
(`ProcessManager.run_with_memory_monitoring`) arms only the primary
timeout and the memory sampler, with no watchdog. -/
theorem watchdog_only_in_legacy_evaluator (timeLimit : ℚ) :
    (evaluatorRunPlan timeLimit).watchdogDelay = some (timeLimit * (6 / 5)) ∧
    (evaluatorRunPlan timeLimit).primaryTimeout = some timeLimit ∧
    (processManagerRunPlan timeLimit).watchdogDelay = none ∧
    (processManagerRunPlan timeLimit).primaryTimeout = some timeLimit :=
  ⟨rfl, rfl, rfl, rfl⟩

/-- **C7, counterexample.** When the toolchain fails on an unchanged source,
two successive compilations invoke it twice, not at most once: failure is
not cached, so the second call retries. -/
theorem compiler_cache_at_most_once_counterexample :
    ¬ invocationsTwoCalls (fun _ => false) "sol.cpp" ≤ 1 := by
  decide

/-- **C7, amended.** Success is cached by source path, so after a successful
compilation every later compile call for that path skips the toolchain
(at most one invocation over two successive calls from an empty cache);
failure is not cached: the cache is unchanged and a later call retries the
toolchain. -/
theorem compiler_cache_retry_semantics (toolchainOk : String → Bool)
    (path : String) (cache : List String)
    (hcpp : (pyEndsWith path ".c" || pyEndsWith path ".cpp") = true) :
    (toolchainOk path = true →
      (processCompileStep toolchainOk
        (processCompileStep toolchainOk cache path).2 path).1 = false ∧
      invocationsTwoCalls toolchainOk path ≤ 1) ∧
    (toolchainOk path = false →
      (processCompileStep toolchainOk cache path).2 = cache ∧
      (cache.contains path = false →
        (processCompileStep toolchainOk cache path).1 = true ∧
        (processCompileStep toolchainOk
          (processCompileStep toolchainOk cache path).2 path).1 = true)) := by
  constructor
  · intro hok
    constructor
    · by_cases hmem : path ∈ cache
      · simp [processCompileStep, hcpp, hmem]
      · simp [processCompileStep, hcpp, hmem, hok]
    · simp [invocationsTwoCalls, processCompileStep, hcpp, hok]
  · intro hbad
    constructor
    · by_cases hmem : path ∈ cache
      · simp [processCompileStep, hcpp, hmem]
      · simp [processCompileStep, hcpp, hmem, hbad]
    · intro hmem
      have hm : ¬ path ∈ cache := by simpa using hmem
      simp [processCompileStep, hcpp, hm, hbad]

/-- Witness for C7: with a succeeding toolchain, the second compile call for
`a.cpp` does not invoke the toolchain. -/
theorem compiler_cache_retry_semantics_witness :
    (processCompileStep (fun _ => true)
      (processCompileStep (fun _ => true) [] "a.cpp").2 "a.cpp").1 = false :=
  (((compiler_cache_retry_semantics (fun _ => true) "a.cpp" []
    (by decide)).1) rfl).1

end SigmaJudge
